import Mathlib

/-!
# Shallow embedding of the smoqs in-memory SNS/SQS mock

This file embeds the core messaging engine of the repository (src/state.rs,
src/sqs.rs, src/sns.rs, src/misc.rs) into Lean and proves properties of it.

Modelling conventions, kept uniform throughout:

* Rust `HashMap` becomes an association list with the same lookup / insert /
  remove / get_mut semantics (`alookup`, `ainsert`, `aremove`, `aupdate`).
  Iteration order of a `HashMap` is unspecified in Rust, so nothing proved
  here depends on the order of entries in these lists.
* `uuid::Uuid::new_v4()` / `misc::get_new_id()` (an opaque globally-unique id
  generator) is modelled by a `nextId : Nat` counter threaded through `State`;
  each generated id is the current counter value and the counter is bumped.
  Request ids that appear only inside XML `ResponseMetadata` are not modelled.
* `chrono::Utc::now()` becomes an explicit `now : Int` argument (seconds);
  `now + Duration::seconds t` becomes `now + t`.
* A subscription ARN `format!("{topic_arn}:{id}")` is modelled by the
  structured pair `SubscriptionArn` (the format is injective given that the
  generator never repeats an id).
* The tokio oneshot channel stored in `SQSQueue.bell` is modelled by `Bell`,
  a record carrying whether the receiver half is still alive.  `get_waiter`
  stores `some { receiverAlive := true }`; when a receive call returns while
  the bell is still armed, the receiver is dropped and the stored half
  becomes `some { receiverAlive := false }`.
* Handlers return `Except MyError _`; XML rendering of the response body is
  presentation and is not modelled (handlers return the data the XML shows).
* `receive_count` is a `u8` in the source; it is modelled as a `Nat` reduced
  mod 256 at the single place the source increments it.
-/

namespace Smoqs

/-- Lookup in an association list (Rust `HashMap::get`). -/
def alookup {κ α : Type} [DecidableEq κ] : List (κ × α) → κ → Option α
  | [], _ => none
  | (k', v) :: rest, k => if k = k' then some v else alookup rest k

/-- Insert-or-replace in an association list (Rust `HashMap::insert`). -/
def ainsert {κ α : Type} [DecidableEq κ] : List (κ × α) → κ → α → List (κ × α)
  | [], k, v => [(k, v)]
  | (k', v') :: rest, k, v =>
    if k = k' then (k', v) :: rest else (k', v') :: ainsert rest k v

/-- Remove a key from an association list (Rust `HashMap::remove`). -/
def aremove {κ α : Type} [DecidableEq κ] : List (κ × α) → κ → List (κ × α)
  | [], _ => []
  | (k', v) :: rest, k =>
    if k = k' then aremove rest k else (k', v) :: aremove rest k

/-- Modify the value at a key if present (Rust `HashMap::get_mut` followed by
an in-place mutation); absent keys leave the map unchanged. -/
def aupdate {κ α : Type} [DecidableEq κ] (f : α → α) : List (κ × α) → κ → List (κ × α)
  | [], _ => []
  | (k', v) :: rest, k =>
    if k = k' then (k', f v) :: rest else (k', v) :: aupdate f rest k

/-- The decimal value of a digit character, if it is one. -/
def char_digit? (c : Char) : Option Nat :=
  let n := c.toNat
  if 48 ≤ n ∧ n ≤ 57 then some (n - 48) else none

def parse_digits_aux : List Char → Nat → Option Nat
  | [], acc => some acc
  | c :: rest, acc =>
    match char_digit? c with
    | some d => parse_digits_aux rest (acc * 10 + d)
    | none => none

/-- Rust `str::parse::<uN>()` for an unsigned integer type with maximum value
`bound`: optional leading `+`, then a nonempty digit string, rejecting values
above the bound. -/
def parseUInt (bound : Nat) (s : String) : Option Nat :=
  let chars := match s.data with
    | '+' :: rest => rest
    | cs => cs
  match chars with
  | [] => none
  | _ :: _ =>
    match parse_digits_aux chars 0 with
    | some n => if n ≤ bound then some n else none
    | none => none

def u8Max : Nat := 255
def u32Max : Nat := 4294967295
def u64Max : Nat := 18446744073709551615

/-- Error type from src/errors.rs (the variants the embedded handlers can
produce). -/
inductive MyError where
  | missingParameter (p : String)
  | queueNotFound (url : String)
  | topicNotFound (arn : String)
  deriving DecidableEq, Repr

/-- A decoded request form: the `HashMap<String, String>` each handler
receives. -/
abbrev Form := List (String × String)

/-- Attribute maps (`HashMap<String, String>`). -/
abbrev AttrMap := List (String × String)

/-- src/state.rs `Message`.  `id` and `receipt_handle` are generator ids
(see the header note); `receive_count` is a `u8` tracked as a `Nat`. -/
structure Message where
  id : Nat
  content : String
  attributes : AttrMap
  receive_count : Nat
  receipt_handle : Nat
  deriving DecidableEq, Repr

/-- Source `Message::new` consumes two generator ids: one for `id` (uuid) and one
for the initial `ReceiveHandle::new()`. -/
def Message.new (content : String) (attributes : AttrMap) (idGen : Nat) : Message :=
  { id := idGen, content := content, attributes := attributes
    receive_count := 0, receipt_handle := idGen + 1 }

/-- The in-queue half of a tokio oneshot channel (`SQSQueue.bell`), recording
whether the receiver half still exists. -/
structure Bell where
  receiverAlive : Bool
  deriving DecidableEq, Repr

/-- src/state.rs `SQSQueue`.  `messages` is the `VecDeque` with its head at
the front. -/
structure SQSQueue where
  name : String
  attributes : AttrMap
  messages : List Message
  bell : Option Bell
  deriving DecidableEq, Repr

def SQSQueue.new (name : String) (attributes : AttrMap) : SQSQueue :=
  { name := name, attributes := attributes, messages := [], bell := none }

/-- Source `SQSQueue::get_attribute`. -/
def SQSQueue.get_attribute (q : SQSQueue) (key default : String) : String :=
  (alookup q.attributes key).getD default

/-- Source `SQSQueue::set_attribute_default` (insert only if vacant). -/
def SQSQueue.set_attribute_default (q : SQSQueue) (key default : String) : SQSQueue :=
  match alookup q.attributes key with
  | none => { q with attributes := q.attributes ++ [(key, default)] }
  | some _ => q

/-- Source `SQSQueue::has_message`. -/
def SQSQueue.has_message (q : SQSQueue) : Bool :=
  !q.messages.isEmpty

/-- Source `SQSQueue::get_waiter`: arm the bell with a fresh channel whose receiver
is alive, returning (conceptually) the receiver half. -/
def SQSQueue.get_waiter (q : SQSQueue) : SQSQueue :=
  { q with bell := some { receiverAlive := true } }

/-- Source `SQSQueue::send_message`: push to the back of the deque and take the bell
(if any), attempting to ring it.  The ring outcome is only logged by the
source, so the state effect is: message appended, bell slot emptied. -/
def SQSQueue.send_message (q : SQSQueue) (message : Message) : SQSQueue :=
  { q with messages := q.messages ++ [message], bell := none }

/-- The pop loop inside `SQSQueue::receive_messages`:
`for _ in 0..count { pop_front }`, collecting popped messages in order. -/
def pop_loop : Nat → List Message → List Message × List Message
  | 0, msgs => ([], msgs)
  | _ + 1, [] => ([], [])
  | n + 1, m :: rest =>
    let r := pop_loop n rest
    (m :: r.1, r.2)

/-- Source `SQSQueue::receive_messages`. -/
def SQSQueue.receive_messages (q : SQSQueue) (count : Nat) : List Message × SQSQueue :=
  let r := pop_loop count q.messages
  (r.1, { q with messages := r.2 })

lemma pop_loop_eq (n : Nat) (msgs : List Message) :
    pop_loop n msgs = (msgs.take n, msgs.drop n) := by
  induction n generalizing msgs with
  | zero => simp [pop_loop]
  | succ n ih =>
    cases msgs with
    | nil => simp [pop_loop]
    | cons m rest => simp [pop_loop, ih]

/-- C1: For every queue, messages are delivered in FIFO order:
`send_message` appends to the back of the pending sequence and
`receive_messages n` pops the `min n pending` oldest messages from the front
in exactly their enqueue order, leaving the rest; the operation is a total
function (it never blocks) and returns fewer than `n` exactly when fewer are
pending. -/
theorem fifo_send_receive_order (q : SQSQueue) (m : Message) (n : Nat) :
    (q.send_message m).messages = q.messages ++ [m] ∧
    (q.receive_messages n).1 = q.messages.take n ∧
    (q.receive_messages n).2.messages = q.messages.drop n ∧
    (q.receive_messages n).1.length = min n q.messages.length := by
  refine ⟨rfl, ?_, ?_, ?_⟩
  · simp [SQSQueue.receive_messages, pop_loop_eq]
  · simp [SQSQueue.receive_messages, pop_loop_eq]
  · simp [SQSQueue.receive_messages, pop_loop_eq, List.length_take]

/-- A subscription ARN: the source formats `"{topic_arn}:{id}"`; modelled as
the structured pair (see the header note). -/
structure SubscriptionArn where
  topicArn : String
  subId : Nat
  deriving DecidableEq, Repr

/-- src/state.rs `SNSSubscription`. -/
structure SNSSubscription where
  id : Nat
  arn : SubscriptionArn
  owner : String
  protocol : String
  endpoint : String
  topic_arn : String
  deriving DecidableEq, Repr

/-- Source `SNSSubscription::new_sqs` (the id comes from the generator). -/
def SNSSubscription.new_sqs (topic_arn : String) (endpoint : String)
    (account_id : String) (idGen : Nat) : SNSSubscription :=
  { id := idGen, arn := { topicArn := topic_arn, subId := idGen }
    owner := account_id, protocol := "sqs", endpoint := endpoint
    topic_arn := topic_arn }

/-- src/state.rs `SNSTopic`. -/
structure SNSTopic where
  name : String
  arn : String
  attributes : AttrMap
  subscriptions : List SNSSubscription
  deriving DecidableEq, Repr

def SNSTopic.new (name : String) (arn : String) (attributes : AttrMap) : SNSTopic :=
  { name := name, arn := arn, attributes := attributes, subscriptions := [] }

/-- Source `SNSTopic::add_subscription`: scan for an existing subscription with the
same `(topic_arn, endpoint)` pair; if found, do nothing, else push. -/
def SNSTopic.add_subscription (t : SNSTopic) (subscription : SNSSubscription) : SNSTopic :=
  if t.subscriptions.any fun s0 =>
      s0.topic_arn == subscription.topic_arn && s0.endpoint == subscription.endpoint
  then t
  else { t with subscriptions := t.subscriptions ++ [subscription] }

/-- Source `SNSTopic::remove_subscription` (`retain(|s| s.arn != subscription_arn)`). -/
def SNSTopic.remove_subscription (t : SNSTopic) (subscription_arn : SubscriptionArn) : SNSTopic :=
  { t with subscriptions := t.subscriptions.filter fun s0 => !(s0.arn == subscription_arn) }

/-- Source `SNSTopic::get_queue_urls`. -/
def SNSTopic.get_queue_urls (t : SNSTopic) : List String :=
  t.subscriptions.map (·.endpoint)

/-- src/state.rs `ReceivedMessage` (`expires` is an absolute timestamp in
seconds). -/
structure ReceivedMessage where
  message : Message
  queue_path : String
  expires : Int
  deriving DecidableEq, Repr

/-- Source `ReceivedMessage::new`: `expires = now + timeout_seconds`. -/
def ReceivedMessage.new (message : Message) (queue_path : String)
    (timeout_seconds : Nat) (now : Int) : ReceivedMessage :=
  { message := message, queue_path := queue_path
    expires := now + (timeout_seconds : Int) }

/-- Source `ReceivedMessage::has_expired` (`Utc::now() > self.expires`). -/
def ReceivedMessage.has_expired (r : ReceivedMessage) (now : Int) : Bool :=
  now > r.expires

/-- Source `ReceivedMessage::set_visibility_timeout`. -/
def ReceivedMessage.set_visibility_timeout (r : ReceivedMessage)
    (visibility_timeout : Nat) (now : Int) : ReceivedMessage :=
  { r with expires := now + (visibility_timeout : Int) }

/-- src/state.rs `State`.  `queues` is keyed by queue path, `topics` by topic
ARN string, `received_messages` by receipt handle.  `nextId` models the
unique-id generator (see the header note). -/
structure State where
  account_id : String
  region : String
  endpoint_url : String
  queues : List (String × SQSQueue)
  topics : List (String × SNSTopic)
  received_messages : List (Nat × ReceivedMessage)
  nextId : Nat
  deriving DecidableEq, Repr

/-- Source `starts_with("arn")` on the underlying characters. -/
def starts_with_arn (s : String) : Bool :=
  match s.data with
  | 'a' :: 'r' :: 'n' :: _ => true
  | _ => false

/-- The characters after the last occurrence of `sep` (`rsplit(sep).next()`):
scan left to right, resetting the accumulator at each separator. -/
def last_segment_chars (sep : Char) : List Char → List Char → List Char
  | [], acc => acc.reverse
  | c :: rest, acc =>
    if c = sep then last_segment_chars sep rest []
    else last_segment_chars sep rest (c :: acc)

/-- Source `State::get_queue_path`: the segment after the last `:` of an ARN, or
after the last `/` of a URL (`rsplit(..).next()`).  The source method ignores
`self`, so it is a standalone function here. -/
def get_queue_path (queue_url : String) : String :=
  if starts_with_arn queue_url then
    String.mk (last_segment_chars ':' queue_url.data [])
  else
    String.mk (last_segment_chars '/' queue_url.data [])

/-- Source `State::get_queue_url`. -/
def State.get_queue_url (s : State) (queue_name : String) : String :=
  s.endpoint_url ++ "/" ++ s.account_id ++ "/" ++ queue_name

/-- Source `State::get_topic_arn`. -/
def State.get_topic_arn (s : State) (topic_name : String) : String :=
  "arn:aws:sns:" ++ s.region ++ ":" ++ s.account_id ++ ":" ++ topic_name

/-- Source `State::add_queue`: insert only if the derived path is vacant; returns
whether the queue was inserted. -/
def State.add_queue (s : State) (queue : SQSQueue) : State × Bool :=
  let url := s.get_queue_url queue.name
  let path := get_queue_path url
  match alookup s.queues path with
  | none => ({ s with queues := s.queues ++ [(path, queue)] }, true)
  | some _ => (s, false)

/-- Source `State::add_topic`. -/
def State.add_topic (s : State) (topic : SNSTopic) : State × Bool :=
  let arn := s.get_topic_arn topic.name
  match alookup s.topics arn with
  | none => ({ s with topics := s.topics ++ [(arn, topic)] }, true)
  | some _ => (s, false)

/-- Source `State::add_received_message`: mint a fresh receipt handle, store the
wrapped message with its expiry, return the handle. -/
def State.add_received_message (s : State) (message : Message)
    (queue_path : String) (timeout_seconds : Nat) (now : Int) : Nat × State :=
  let handle := s.nextId
  (handle,
   { s with
     received_messages :=
       s.received_messages ++ [(handle, ReceivedMessage.new message queue_path timeout_seconds now)]
     nextId := s.nextId + 1 })

/-- Source `State::delete_received_message`. -/
def State.delete_received_message (s : State) (handle : Nat) : State :=
  { s with received_messages := aremove s.received_messages handle }

/-- src/misc.rs `get_attributes`: scan `Attribute.{i}.Name` / `.Value` for
`i = 1..99`, stopping at the first gap (the Rust loop range is `1..100`). -/
def get_attributes_from (form : Form) (prefixStr : String) :
    Nat → Nat → AttrMap → AttrMap
  | _, 0, acc => acc
  | count, fuel + 1, acc =>
    match alookup form (prefixStr ++ "." ++ toString count ++ ".Name") with
    | some k =>
      match alookup form (prefixStr ++ "." ++ toString count ++ ".Value") with
      | some v => get_attributes_from form prefixStr (count + 1) fuel (ainsert acc k v)
      | none => acc
    | none => acc

def get_attributes (form : Form) : AttrMap :=
  get_attributes_from form "Attribute" 1 99 []

/-- src/misc.rs `get_message_attributes`. -/
def get_message_attributes (form : Form) : AttrMap :=
  get_attributes_from form "MessageAttribute" 1 99 []

/-- src/sqs.rs `create_queue`: build the queue from the form attributes, fill
in the `VisibilityTimeout` default of `"30"`, try to add it (a no-op when the
derived path is already taken), and return the derived queue URL. -/
def create_queue (form : Form) (s : State) : Except MyError (State × String) :=
  match alookup form "QueueName" with
  | none => .error (.missingParameter "QueueName")
  | some queue_name =>
    let attributes := get_attributes form
    let q := (SQSQueue.new queue_name attributes).set_attribute_default "VisibilityTimeout" "30"
    let s' := (s.add_queue q).1
    .ok (s', s.get_queue_url queue_name)

/-- src/sqs.rs `send_message`: append a fresh message to the queue at the
url's derived path, ringing any parked waiter; returns the message id.
(`DelaySeconds` is parsed but unused by the source; MD5 digests are
presentation.) -/
def send_message (form : Form) (s : State) : Except MyError (State × Nat) :=
  match alookup form "QueueUrl" with
  | none => .error (.missingParameter "QueueUrl")
  | some queue_url =>
    match alookup form "MessageBody" with
    | none => .error (.missingParameter "MessageBody")
    | some message_body =>
      let attributes := get_message_attributes form
      let path := get_queue_path queue_url
      match alookup s.queues path with
      | none => .error (.queueNotFound queue_url)
      | some _ =>
        let message := Message.new message_body attributes s.nextId
        .ok ({ s with
               queues := aupdate (fun q => q.send_message message) s.queues path
               nextId := s.nextId + 2 },
             message.id)

/-- src/sqs.rs `receive_message` lines 243-250: parse `MaxNumberOfMessages`
as a `u8` defaulting to 1, then reset anything outside `[1, 10]` to 1. -/
def effective_max_count (form : Form) : Nat :=
  let max_count := ((alookup form "MaxNumberOfMessages").bind (parseUInt u8Max)).getD 1
  if 10 < max_count || max_count < 1 then 1 else max_count

/-- One iteration of the delivery loop in src/sqs.rs `receive_message`
lines 303-307: increment the `u8` receive count, store a clone (carrying the
*old* receipt handle, as the source clones before reassigning the handle) in
the in-flight table, and give the outgoing copy the fresh handle. -/
def deliver_step (queue_path : String) (visibility_timeout : Nat) (now : Int)
    (acc : State × List Message) (m : Message) : State × List Message :=
  let m1 := { m with receive_count := (m.receive_count + 1) % 256 }
  let r := acc.1.add_received_message m1 queue_path visibility_timeout now
  (r.2, acc.2 ++ [{ m1 with receipt_handle := r.1 }])

/-- The post-pop block of src/sqs.rs `receive_message` lines 289-309: if any
messages were popped and the queue still exists, compute the effective
visibility timeout (request value, else the queue attribute parsed as `u32`
with fallback 600) and run the delivery loop. -/
def deliver (queue_path : String) (visibility_timeout_recv : Option Nat) (now : Int)
    (s : State) (msgs : List Message) : State × List Message :=
  if msgs.isEmpty then (s, msgs) else
  match alookup s.queues queue_path with
  | none => (s, msgs)
  | some q =>
    let visibility_timeout_queue :=
      (parseUInt u32Max (q.get_attribute "VisibilityTimeout" "600")).getD 600
    let visibility_timeout := visibility_timeout_recv.getD visibility_timeout_queue
    msgs.foldl (deliver_step queue_path visibility_timeout now) (s, [])

/-- src/sqs.rs `receive_message`, for a call during which no concurrent send
arrives.  With messages pending it pops up to the effective max count and
delivers them.  With none pending, `get_message_or_waiter` arms the bell via
`get_waiter`; whether `WaitTimeSeconds` is 0 (the receiver is dropped at
once) or positive (the `tokio::time::timeout` elapses and drops the
receiver), the call ends with an empty result and the armed bell's receiver
half dead. -/
def receive_message (form : Form) (now : Int) (s : State) :
    Except MyError (State × List Message) :=
  match alookup form "QueueUrl" with
  | none => .error (.missingParameter "QueueUrl")
  | some queue_url =>
    let max_count := effective_max_count form
    let visibility_timeout_recv := (alookup form "VisibilityTimeout").bind (parseUInt u32Max)
    let path := get_queue_path queue_url
    match alookup s.queues path with
    | none => .error (.queueNotFound queue_url)
    | some q =>
      if q.has_message then
        let r := q.receive_messages max_count
        let s1 := { s with queues := aupdate (fun _ => r.2) s.queues path }
        .ok (deliver path visibility_timeout_recv now s1 r.1)
      else
        .ok ({ s with
               queues :=
                 aupdate (fun q0 => { q0.get_waiter with bell := some { receiverAlive := false } })
                   s.queues path },
             [])

/-- src/sqs.rs `delete_message`: purge the in-flight record; always succeeds
once the `ReceiptHandle` parameter is present. -/
def delete_message (receipt_handle : Option Nat) (s : State) : Except MyError State :=
  match receipt_handle with
  | none => .error (.missingParameter "ReceiptHandle")
  | some handle => .ok (s.delete_received_message handle)

/-- src/sqs.rs `change_message_visibility`: if the `VisibilityTimeout` field
parses as a `u32` and the handle is in flight, recompute its expiry; always
succeeds once the `ReceiptHandle` parameter is present. -/
def change_message_visibility (receipt_handle : Option Nat)
    (visibility_field : Option String) (now : Int) (s : State) : Except MyError State :=
  match receipt_handle with
  | none => .error (.missingParameter "ReceiptHandle")
  | some handle =>
    match visibility_field.bind (parseUInt u32Max) with
    | none => .ok s
    | some visibility_timeout =>
      .ok { s with
            received_messages :=
              aupdate (fun msg => msg.set_visibility_timeout visibility_timeout now)
                s.received_messages handle }

/-- The fan-out loop of src/sns.rs `publish` lines 172-177: for each
subscription endpoint, resolve the queue path and, when the queue exists,
send a clone of the message; missing queues are skipped. -/
def publish_fanout (message : Message) (queue_urls : List String)
    (queues : List (String × SQSQueue)) : List (String × SQSQueue) :=
  queue_urls.foldl
    (fun acc queue_url =>
      aupdate (fun q => q.send_message message) acc (get_queue_path queue_url))
    queues

/-- src/sns.rs `publish`: resolve `TargetArn` (falling back to `TopicArn`),
fail with `TopicNotFound` when the topic is absent, build one message, send a
clone to every subscribed queue that still resolves, and return the single
message id. -/
def publish (form : Form) (s : State) : Except MyError (State × Nat) :=
  let target_arn? := match alookup form "TargetArn" with
    | some x => some x
    | none => alookup form "TopicArn"
  match target_arn? with
  | none => .error (.missingParameter "TopicArn")
  | some target_arn =>
    match alookup form "Message" with
    | none => .error (.missingParameter "Message")
    | some message_body =>
      let attributes := get_message_attributes form
      match alookup s.topics target_arn with
      | none => .error (.topicNotFound target_arn)
      | some t =>
        let queue_urls := t.get_queue_urls
        let message := Message.new message_body attributes s.nextId
        let s1 := { s with nextId := s.nextId + 2 }
        .ok ({ s1 with queues := publish_fanout message queue_urls s1.queues }, message.id)

/-- src/sns.rs `subscribe`: all three parameters are required (a missing
`Endpoint` reports `MissingParameter("TopicArn")`, as in the source); a fresh
subscription (consuming one generator id) is built before the duplicate
check, `add_subscription` drops it when the `(topic_arn, endpoint)` pair
already exists, and the fresh ARN is returned either way. -/
def subscribe (form : Form) (s : State) : Except MyError (State × SubscriptionArn) :=
  match alookup form "TopicArn" with
  | none => .error (.missingParameter "TopicArn")
  | some topic_arn =>
    match alookup form "Endpoint" with
    | none => .error (.missingParameter "TopicArn")
    | some endpoint =>
      match alookup form "Protocol" with
      | none => .error (.missingParameter "Protocol")
      | some _ =>
        match alookup s.topics topic_arn with
        | none => .error (.topicNotFound topic_arn)
        | some _ =>
          let subscription := SNSSubscription.new_sqs topic_arn endpoint s.account_id s.nextId
          .ok ({ s with
                 topics := aupdate (fun t0 => t0.add_subscription subscription) s.topics topic_arn
                 nextId := s.nextId + 1 },
               subscription.arn)

/-- src/sns.rs `unsubscribe`: remove any subscription with the given ARN from
every topic; always succeeds. -/
def unsubscribe (subscription_arn : SubscriptionArn) (s : State) : State :=
  { s with topics := s.topics.map fun p => (p.1, p.2.remove_subscription subscription_arn) }

/-- src/sns.rs `list_subscriptions_by_topic`: the subscriptions of the named
topic, in stored order (the XML renders exactly this list). -/
def list_subscriptions_by_topic (form : Form) (s : State) :
    Except MyError (List SNSSubscription) :=
  match alookup form "TopicArn" with
  | none => .error (.missingParameter "TopicArn")
  | some topic_arn =>
    match alookup s.topics topic_arn with
    | none => .error (.topicNotFound topic_arn)
    | some t => .ok t.subscriptions

section MapLemmas

variable {κ α : Type} [DecidableEq κ]

lemma alookup_aupdate_self (f : α → α) (l : List (κ × α)) (k : κ) :
    alookup (aupdate f l k) k = (alookup l k).map f := by
  induction l with
  | nil => simp [alookup, aupdate]
  | cons p rest ih =>
    obtain ⟨k', v⟩ := p
    by_cases h : k = k' <;> simp [alookup, aupdate, h, ih]

lemma alookup_aupdate_ne (f : α → α) (l : List (κ × α)) (k k' : κ) (h : k' ≠ k) :
    alookup (aupdate f l k) k' = alookup l k' := by
  induction l with
  | nil => simp [alookup, aupdate]
  | cons p rest ih =>
    obtain ⟨k₀, v⟩ := p
    by_cases h1 : k = k₀
    · subst h1
      simp [alookup, aupdate, h, ih]
    · by_cases h2 : k' = k₀ <;> simp [alookup, aupdate, h1, h2, ih]

lemma aupdate_of_notMem (f : α → α) (l : List (κ × α)) (k : κ)
    (h : alookup l k = none) : aupdate f l k = l := by
  induction l with
  | nil => simp [aupdate]
  | cons p rest ih =>
    obtain ⟨k', v⟩ := p
    by_cases h1 : k = k'
    · simp [alookup, h1] at h
    · simp [alookup, h1] at h
      simp [aupdate, h1, ih h]

lemma aupdate_congr_of_lookup (f g : α → α) (l : List (κ × α)) (k : κ) (v : α)
    (hv : alookup l k = some v) (hfg : f v = g v) : aupdate f l k = aupdate g l k := by
  induction l with
  | nil => simp [aupdate]
  | cons p rest ih =>
    obtain ⟨k', v'⟩ := p
    by_cases h1 : k = k'
    · simp [alookup, h1] at hv
      subst hv
      simp [aupdate, h1, hfg]
    · simp [alookup, h1] at hv
      simp [aupdate, h1, ih hv]

lemma aupdate_id_of_lookup (f : α → α) (l : List (κ × α)) (k : κ) (v : α)
    (hv : alookup l k = some v) (hf : f v = v) : aupdate f l k = l := by
  induction l with
  | nil => simp [aupdate]
  | cons p rest ih =>
    obtain ⟨k', v'⟩ := p
    by_cases h1 : k = k'
    · simp [alookup, h1] at hv
      subst hv
      simp [aupdate, h1, hf]
    · simp [alookup, h1] at hv
      simp [aupdate, h1, ih hv]

lemma aremove_of_notMem (l : List (κ × α)) (k : κ)
    (h : alookup l k = none) : aremove l k = l := by
  induction l with
  | nil => simp [aremove]
  | cons p rest ih =>
    obtain ⟨k', v⟩ := p
    by_cases h1 : k = k'
    · simp [alookup, h1] at h
    · simp [alookup, h1] at h
      simp [aremove, h1, ih h]

lemma alookup_aremove_self (l : List (κ × α)) (k : κ) :
    alookup (aremove l k) k = none := by
  induction l with
  | nil => simp [alookup, aremove]
  | cons p rest ih =>
    obtain ⟨k', v⟩ := p
    by_cases h1 : k = k'
    · subst h1
      simpa [aremove] using ih
    · simp [alookup, aremove, h1, ih]

lemma alookup_mem (l : List (κ × α)) (k : κ) (v : α)
    (h : alookup l k = some v) : (k, v) ∈ l := by
  induction l with
  | nil => simp [alookup] at h
  | cons p rest ih =>
    obtain ⟨k', v'⟩ := p
    by_cases h1 : k = k'
    · simp [alookup, h1] at h
      subst h1
      subst h
      exact List.mem_cons_self _ _
    · simp [alookup, h1] at h
      exact List.mem_cons_of_mem _ (ih h)

end MapLemmas

lemma map_id_of_mem {β : Type} (f : β → β) (l : List β)
    (h : ∀ p ∈ l, f p = p) : l.map f = l := by
  induction l with
  | nil => simp
  | cons p rest ih =>
    simp only [List.map_cons, h p (List.mem_cons_self _ _)]
    rw [ih fun p hp => h p (List.mem_cons_of_mem _ hp)]

/-- The outgoing messages produced by the delivery loop when the received
handles start at `base`: each message gets its receive count bumped (mod 256,
it is a `u8`) and consecutive fresh receipt handles. -/
def assign_out (base : Nat) : List Message → List Message
  | [] => []
  | m :: rest =>
    { m with receive_count := (m.receive_count + 1) % 256, receipt_handle := base }
      :: assign_out (base + 1) rest

/-- The in-flight records minted by the delivery loop: keyed by the same
consecutive handles, wrapping the bumped message (which still carries its
previous receipt handle, as the source clones before reassigning), expiring
at `now + visibility_timeout`. -/
def assign_recs (queue_path : String) (visibility_timeout : Nat) (now : Int) (base : Nat) :
    List Message → List (Nat × ReceivedMessage)
  | [] => []
  | m :: rest =>
    (base,
      ReceivedMessage.new { m with receive_count := (m.receive_count + 1) % 256 }
        queue_path visibility_timeout now)
      :: assign_recs queue_path visibility_timeout now (base + 1) rest

lemma deliver_foldl (queue_path : String) (vt : Nat) (now : Int) :
    ∀ (msgs : List Message) (s : State) (out : List Message),
    msgs.foldl (deliver_step queue_path vt now) (s, out) =
      ({ s with
         received_messages :=
           s.received_messages ++ assign_recs queue_path vt now s.nextId msgs
         nextId := s.nextId + msgs.length },
       out ++ assign_out s.nextId msgs) := by
  intro msgs
  induction msgs with
  | nil => intro s out; simp [assign_recs, assign_out]
  | cons m rest ih =>
    intro s out
    simp only [List.foldl_cons]
    rw [show deliver_step queue_path vt now (s, out) m =
        ({ s with
           received_messages :=
             s.received_messages ++
               [(s.nextId, ReceivedMessage.new
                   { m with receive_count := (m.receive_count + 1) % 256 } queue_path vt now)]
           nextId := s.nextId + 1 },
         out ++ [{ m with receive_count := (m.receive_count + 1) % 256,
                          receipt_handle := s.nextId }]) from rfl]
    rw [ih]
    simp [assign_recs, assign_out, List.append_assoc]
    omega

lemma assign_out_length (base : Nat) (msgs : List Message) :
    (assign_out base msgs).length = msgs.length := by
  induction msgs generalizing base with
  | nil => simp [assign_out]
  | cons m rest ih => simp [assign_out, ih]

lemma assign_out_receive_counts (base : Nat) (msgs : List Message) :
    (assign_out base msgs).map (·.receive_count) =
      msgs.map fun m => (m.receive_count + 1) % 256 := by
  induction msgs generalizing base with
  | nil => simp [assign_out]
  | cons m rest ih => simp [assign_out, ih]

lemma assign_recs_expires (queue_path : String) (vt : Nat) (now : Int)
    (base : Nat) (msgs : List Message) :
    ∀ pr ∈ assign_recs queue_path vt now base msgs, pr.2.expires = now + (vt : Int) := by
  induction msgs generalizing base with
  | nil => simp [assign_recs]
  | cons m rest ih =>
    intro pr hpr
    simp only [assign_recs, List.mem_cons] at hpr
    rcases hpr with h | h
    · subst h; rfl
    · exact ih (base + 1) pr h

lemma deliver_snd_length (queue_path : String) (vr : Option Nat) (now : Int)
    (s : State) (msgs : List Message) :
    (deliver queue_path vr now s msgs).2.length = msgs.length := by
  unfold deliver
  by_cases he : msgs.isEmpty
  · simp [he]
  · simp only [he, Bool.false_eq_true, if_false]
    cases hq : alookup s.queues queue_path
    · simp
    · simp [deliver_foldl, assign_out_length]

lemma effective_max_count_bounds (form : Form) :
    1 ≤ effective_max_count form ∧ effective_max_count form ≤ 10 := by
  simp only [effective_max_count]
  split
  · omega
  · rename_i h
    simp only [Bool.or_eq_true, decide_eq_true_eq, not_or, not_lt] at h
    omega

/-- Applying `send_message` one or more times appends that many copies and
leaves the bell slot empty. -/
lemma send_message_iterate (msg : Message) :
    ∀ (k : Nat) (q : SQSQueue),
    (fun q0 => SQSQueue.send_message q0 msg)^[k + 1] q =
      { q with messages := q.messages ++ List.replicate (k + 1) msg, bell := none } := by
  intro k
  induction k with
  | zero =>
    intro q
    simp [SQSQueue.send_message]
  | succ k ih =>
    intro q
    rw [Function.iterate_succ_apply, ih]
    simp [SQSQueue.send_message, List.replicate_succ]

lemma publish_fanout_alookup (msg : Message) :
    ∀ (urls : List String) (qs : List (String × SQSQueue)) (p : String),
    alookup (publish_fanout msg urls qs) p =
      (alookup qs p).map
        (fun q0 => SQSQueue.send_message q0 msg)^[urls.countP fun u => get_queue_path u == p] := by
  intro urls
  induction urls with
  | nil => intro qs p; simp [publish_fanout]
  | cons u rest ih =>
    intro qs p
    have hstep : publish_fanout msg (u :: rest) qs =
        publish_fanout msg rest
          (aupdate (fun q => q.send_message msg) qs (get_queue_path u)) := rfl
    rw [hstep, ih]
    by_cases h : get_queue_path u = p
    · subst h
      rw [alookup_aupdate_self]
      rw [List.countP_cons_of_pos _ _ (by simp)]
      rw [Option.map_map, ← Function.iterate_succ]
    · rw [alookup_aupdate_ne _ _ _ _ (Ne.symm h)]
      rw [List.countP_cons_of_neg _ _ (by simp [h])]

/-- The effective visibility timeout `receive_message` applies (src/sqs.rs
lines 293-299): the request-supplied value when it parses as a `u32`,
otherwise the queue's `VisibilityTimeout` attribute parsed as a `u32` with a
fallback of 600 when the attribute is absent or unparseable. -/
def effective_visibility_timeout (form : Form) (q : SQSQueue) : Nat :=
  ((alookup form "VisibilityTimeout").bind (parseUInt u32Max)).getD
    ((parseUInt u32Max (q.get_attribute "VisibilityTimeout" "600")).getD 600)

/-- C2 (code_bug evidence): the visibility window is computed but never
enforced — `ReceivedMessage::has_expired` has no caller, and no code path
returns an expired in-flight record to its queue.  Concretely: create a
queue, send `"hello"`, receive it at time 0 (minting an in-flight record
that expires at 30), then at time 100 the record has expired, yet a second
receive returns empty and the expired record is still in the in-flight
table — the message never becomes available for redelivery, contradicting
the claim (and the source's own comment at src/sqs.rs:301-302). -/
theorem expired_inflight_never_requeued :
    create_queue [("QueueName", "q1")]
      { account_id := "a", region := "r", endpoint_url := "u",
        queues := [], topics := [], received_messages := [], nextId := 0 } =
      .ok ({ account_id := "a", region := "r", endpoint_url := "u",
             queues := [("q1", { name := "q1", attributes := [("VisibilityTimeout", "30")],
                                 messages := [], bell := none })],
             topics := [], received_messages := [], nextId := 0 }, "u/a/q1") ∧
    send_message [("QueueUrl", "u/a/q1"), ("MessageBody", "hello")]
      { account_id := "a", region := "r", endpoint_url := "u",
        queues := [("q1", { name := "q1", attributes := [("VisibilityTimeout", "30")],
                            messages := [], bell := none })],
        topics := [], received_messages := [], nextId := 0 } =
      .ok ({ account_id := "a", region := "r", endpoint_url := "u",
             queues := [("q1", { name := "q1", attributes := [("VisibilityTimeout", "30")],
                                 messages := [{ id := 0, content := "hello", attributes := [],
                                                receive_count := 0, receipt_handle := 1 }],
                                 bell := none })],
             topics := [], received_messages := [], nextId := 2 }, 0) ∧
    receive_message [("QueueUrl", "u/a/q1")] 0
      { account_id := "a", region := "r", endpoint_url := "u",
        queues := [("q1", { name := "q1", attributes := [("VisibilityTimeout", "30")],
                            messages := [{ id := 0, content := "hello", attributes := [],
                                           receive_count := 0, receipt_handle := 1 }],
                            bell := none })],
        topics := [], received_messages := [], nextId := 2 } =
      .ok ({ account_id := "a", region := "r", endpoint_url := "u",
             queues := [("q1", { name := "q1", attributes := [("VisibilityTimeout", "30")],
                                 messages := [], bell := none })],
             topics := [],
             received_messages :=
               [(2, { message := { id := 0, content := "hello", attributes := [],
                                   receive_count := 1, receipt_handle := 1 },
                      queue_path := "q1", expires := 30 })],
             nextId := 3 },
           [{ id := 0, content := "hello", attributes := [],
              receive_count := 1, receipt_handle := 2 }]) ∧
    ReceivedMessage.has_expired
      { message := { id := 0, content := "hello", attributes := [],
                     receive_count := 1, receipt_handle := 1 },
        queue_path := "q1", expires := 30 } 100 = true ∧
    receive_message [("QueueUrl", "u/a/q1")] 100
      { account_id := "a", region := "r", endpoint_url := "u",
        queues := [("q1", { name := "q1", attributes := [("VisibilityTimeout", "30")],
                            messages := [], bell := none })],
        topics := [],
        received_messages :=
          [(2, { message := { id := 0, content := "hello", attributes := [],
                              receive_count := 1, receipt_handle := 1 },
                 queue_path := "q1", expires := 30 })],
        nextId := 3 } =
      .ok ({ account_id := "a", region := "r", endpoint_url := "u",
             queues := [("q1", { name := "q1", attributes := [("VisibilityTimeout", "30")],
                                 messages := [], bell := some { receiverAlive := false } })],
             topics := [],
             received_messages :=
               [(2, { message := { id := 0, content := "hello", attributes := [],
                                   receive_count := 1, receipt_handle := 1 },
                      queue_path := "q1", expires := 30 })],
             nextId := 3 }, []) :=
  ⟨rfl, rfl, rfl, rfl, rfl⟩

/-- C3 (counterexample): the fallback when the queue's `VisibilityTimeout`
attribute does not parse is 600, not 30.  Create a queue whose
`VisibilityTimeout` attribute is the unparseable `"abc"` (the create-time
default only fills a *vacant* attribute), send a message, receive it with no
request-level `VisibilityTimeout`: the minted in-flight record expires at
`0 + 600`, not `0 + 30` as the claim's default-30 reading predicts. -/
theorem receive_visibility_default_cex :
    create_queue
      [("QueueName", "q1"), ("Attribute.1.Name", "VisibilityTimeout"),
       ("Attribute.1.Value", "abc")]
      { account_id := "a", region := "r", endpoint_url := "u",
        queues := [], topics := [], received_messages := [], nextId := 0 } =
      .ok ({ account_id := "a", region := "r", endpoint_url := "u",
             queues := [("q1", { name := "q1", attributes := [("VisibilityTimeout", "abc")],
                                 messages := [], bell := none })],
             topics := [], received_messages := [], nextId := 0 }, "u/a/q1") ∧
    send_message [("QueueUrl", "u/a/q1"), ("MessageBody", "x")]
      { account_id := "a", region := "r", endpoint_url := "u",
        queues := [("q1", { name := "q1", attributes := [("VisibilityTimeout", "abc")],
                            messages := [], bell := none })],
        topics := [], received_messages := [], nextId := 0 } =
      .ok ({ account_id := "a", region := "r", endpoint_url := "u",
             queues := [("q1", { name := "q1", attributes := [("VisibilityTimeout", "abc")],
                                 messages := [{ id := 0, content := "x", attributes := [],
                                                receive_count := 0, receipt_handle := 1 }],
                                 bell := none })],
             topics := [], received_messages := [], nextId := 2 }, 0) ∧
    receive_message [("QueueUrl", "u/a/q1")] 0
      { account_id := "a", region := "r", endpoint_url := "u",
        queues := [("q1", { name := "q1", attributes := [("VisibilityTimeout", "abc")],
                            messages := [{ id := 0, content := "x", attributes := [],
                                           receive_count := 0, receipt_handle := 1 }],
                            bell := none })],
        topics := [], received_messages := [], nextId := 2 } =
      .ok ({ account_id := "a", region := "r", endpoint_url := "u",
             queues := [("q1", { name := "q1", attributes := [("VisibilityTimeout", "abc")],
                                 messages := [], bell := none })],
             topics := [],
             received_messages :=
               [(2, { message := { id := 0, content := "x", attributes := [],
                                   receive_count := 1, receipt_handle := 1 },
                      queue_path := "q1", expires := 600 })],
             nextId := 3 },
           [{ id := 0, content := "x", attributes := [],
              receive_count := 1, receipt_handle := 2 }]) ∧
    (600 : Int) ≠ 0 + 30 :=
  ⟨rfl, rfl, rfl, by decide⟩

/-- C3 (amended): on every delivery, each popped message has its
`receive_count` (a `u8`) incremented by one mod 256, and every minted
in-flight record expires at `now` plus the effective visibility timeout,
which is the request-supplied `VisibilityTimeout` when it parses, otherwise
the queue's configured `VisibilityTimeout` attribute parsed as a `u32`; the
fallback when that attribute is absent or unparseable is 600 (30 is only the
attribute default `create_queue` fills in at creation time). -/
theorem receive_visibility_and_count_amended
    (form : Form) (now : Int) (s : State) (queue_url : String) (q : SQSQueue)
    (hurl : alookup form "QueueUrl" = some queue_url)
    (hq : alookup s.queues (get_queue_path queue_url) = some q)
    (hmsg : q.messages ≠ []) :
    receive_message form now s =
      .ok ({ s with
             queues := aupdate
               (fun _ => { q with messages := q.messages.drop (effective_max_count form) })
               s.queues (get_queue_path queue_url)
             received_messages := s.received_messages ++
               assign_recs (get_queue_path queue_url) (effective_visibility_timeout form q) now
                 s.nextId (q.messages.take (effective_max_count form))
             nextId := s.nextId + (q.messages.take (effective_max_count form)).length },
           assign_out s.nextId (q.messages.take (effective_max_count form))) ∧
    ((assign_out s.nextId (q.messages.take (effective_max_count form))).map
        (·.receive_count) =
      (q.messages.take (effective_max_count form)).map
        fun m => (m.receive_count + 1) % 256) ∧
    (∀ pr ∈ assign_recs (get_queue_path queue_url) (effective_visibility_timeout form q) now
        s.nextId (q.messages.take (effective_max_count form)),
      pr.2.expires = now + (effective_visibility_timeout form q : Int)) := by
  refine ⟨?_, assign_out_receive_counts _ _,
    fun pr hpr => assign_recs_expires _ _ _ _ _ pr hpr⟩
  have hhm : q.has_message = true := by
    simp [SQSQueue.has_message, hmsg]
  have hpop : (q.messages.take (effective_max_count form)).isEmpty = false := by
    have h1 := (effective_max_count_bounds form).1
    cases hqm : q.messages with
    | nil => exact absurd hqm hmsg
    | cons a l =>
      cases hn : effective_max_count form with
      | zero => omega
      | succ k => simp [List.take]
  simp only [receive_message, hurl, hq, hhm, if_true]
  simp only [SQSQueue.receive_messages, pop_loop_eq]
  unfold deliver
  simp only [hpop, Bool.false_eq_true, if_false]
  rw [alookup_aupdate_self, hq]
  simp only [Option.map_some']
  rw [deliver_foldl]
  rfl

/-- Witness for C3 (amended): a queue whose `VisibilityTimeout` attribute is
`"45"`, receiving with a request-level `VisibilityTimeout` of `"7"` at time
5: the request value wins, so the minted record expires at 12 and the
returned message carries receive count 1 and the fresh handle 20. -/
theorem receive_visibility_and_count_amended_witness :
    alookup ([("QueueUrl", "u/a/q1"), ("VisibilityTimeout", "7")] : Form) "QueueUrl"
      = some "u/a/q1" ∧
    alookup ({ account_id := "a", region := "r", endpoint_url := "u",
               queues := [("q1", { name := "q1",
                                   attributes := [("VisibilityTimeout", "45")],
                                   messages := [{ id := 9, content := "hi", attributes := [],
                                                  receive_count := 0, receipt_handle := 4 }],
                                   bell := none })],
               topics := [], received_messages := [], nextId := 20 } : State).queues
        (get_queue_path "u/a/q1")
      = some { name := "q1", attributes := [("VisibilityTimeout", "45")],
               messages := [{ id := 9, content := "hi", attributes := [],
                              receive_count := 0, receipt_handle := 4 }],
               bell := none } ∧
    ({ name := "q1", attributes := [("VisibilityTimeout", "45")],
       messages := [{ id := 9, content := "hi", attributes := [],
                      receive_count := 0, receipt_handle := 4 }],
       bell := none } : SQSQueue).messages ≠ [] ∧
    receive_message [("QueueUrl", "u/a/q1"), ("VisibilityTimeout", "7")] 5
      { account_id := "a", region := "r", endpoint_url := "u",
        queues := [("q1", { name := "q1", attributes := [("VisibilityTimeout", "45")],
                            messages := [{ id := 9, content := "hi", attributes := [],
                                           receive_count := 0, receipt_handle := 4 }],
                            bell := none })],
        topics := [], received_messages := [], nextId := 20 } =
      .ok ({ account_id := "a", region := "r", endpoint_url := "u",
             queues := [("q1", { name := "q1", attributes := [("VisibilityTimeout", "45")],
                                 messages := [], bell := none })],
             topics := [],
             received_messages :=
               [(20, { message := { id := 9, content := "hi", attributes := [],
                                    receive_count := 1, receipt_handle := 4 },
                       queue_path := "q1", expires := 12 })],
             nextId := 21 },
           [{ id := 9, content := "hi", attributes := [],
              receive_count := 1, receipt_handle := 20 }]) :=
  ⟨rfl, rfl, by decide,
    (receive_visibility_and_count_amended
      [("QueueUrl", "u/a/q1"), ("VisibilityTimeout", "7")] 5
      { account_id := "a", region := "r", endpoint_url := "u",
        queues := [("q1", { name := "q1", attributes := [("VisibilityTimeout", "45")],
                            messages := [{ id := 9, content := "hi", attributes := [],
                                           receive_count := 0, receipt_handle := 4 }],
                            bell := none })],
        topics := [], received_messages := [], nextId := 20 }
      "u/a/q1"
      { name := "q1", attributes := [("VisibilityTimeout", "45")],
        messages := [{ id := 9, content := "hi", attributes := [],
                       receive_count := 0, receipt_handle := 4 }],
        bell := none }
      rfl rfl (by decide)).1⟩

lemma receive_message_ok_length (form : Form) (now : Int) (s : State) :
    ∀ r, receive_message form now s = .ok r → r.2.length ≤ effective_max_count form := by
  intro r h
  simp only [receive_message] at h
  split at h
  · exact absurd h (by simp)
  · split at h
    · exact absurd h (by simp)
    · rename_i q _
      split at h
      · injection h with h1
        rw [← h1, deliver_snd_length]
        simp only [SQSQueue.receive_messages, pop_loop_eq, List.length_take]
        exact min_le_left _ _
      · injection h with h1
        rw [← h1]
        simp

/-- C4: the effective max count of a `ReceiveMessage` call defaults to 1
when `MaxNumberOfMessages` is absent, is reset to 1 when the supplied value
is unparseable or outside `[1, 10]` (never an error), equals the value when
it lies in `[1, 10]`, always lies in `[1, 10]`, and every successful call
returns at most that many messages. -/
theorem max_count_clamp (form : Form) :
    (alookup form "MaxNumberOfMessages" = none → effective_max_count form = 1) ∧
    (∀ v, alookup form "MaxNumberOfMessages" = some v →
      (parseUInt u8Max v = none → effective_max_count form = 1) ∧
      (∀ n, parseUInt u8Max v = some n →
        ((n < 1 ∨ 10 < n) → effective_max_count form = 1) ∧
        (1 ≤ n → n ≤ 10 → effective_max_count form = n))) ∧
    (1 ≤ effective_max_count form ∧ effective_max_count form ≤ 10) ∧
    (∀ (now : Int) (s s' : State) (msgs : List Message),
      receive_message form now s = .ok (s', msgs) →
      msgs.length ≤ effective_max_count form) := by
  refine ⟨?_, ?_, effective_max_count_bounds form,
    fun now s s' msgs hok => receive_message_ok_length form now s (s', msgs) hok⟩
  · intro h
    simp [effective_max_count, h]
  · intro v hv
    refine ⟨?_, ?_⟩
    · intro hp
      simp [effective_max_count, hv, hp]
    · intro n hn
      have heq : effective_max_count form = if 10 < n || n < 1 then 1 else n := by
        simp [effective_max_count, hv, hn]
      refine ⟨?_, ?_⟩
      · intro hout
        rw [heq, if_pos]
        simp only [Bool.or_eq_true, decide_eq_true_eq]
        omega
      · intro h1 h10
        rw [heq, if_neg]
        simp only [Bool.or_eq_true, decide_eq_true_eq, not_or, not_lt]
        omega

/-- Witness for C4: `MaxNumberOfMessages = "25"` parses but is out of range,
so the effective max count is 1, and a receive on a queue holding two
messages returns a single message. -/
theorem max_count_clamp_witness :
    alookup ([("QueueUrl", "u/a/q1"), ("MaxNumberOfMessages", "25")] : Form)
        "MaxNumberOfMessages" = some "25" ∧
    parseUInt u8Max "25" = some 25 ∧
    ((25 : Nat) < 1 ∨ (10 : Nat) < 25) ∧
    effective_max_count [("QueueUrl", "u/a/q1"), ("MaxNumberOfMessages", "25")] = 1 ∧
    receive_message [("QueueUrl", "u/a/q1"), ("MaxNumberOfMessages", "25")] 0
        { account_id := "a", region := "r", endpoint_url := "u",
          queues := [("q1", { name := "q1", attributes := [("VisibilityTimeout", "30")],
                              messages := [{ id := 0, content := "m1", attributes := [],
                                             receive_count := 0, receipt_handle := 1 },
                                           { id := 2, content := "m2", attributes := [],
                                             receive_count := 0, receipt_handle := 3 }],
                              bell := none })],
          topics := [], received_messages := [], nextId := 4 } =
      .ok ({ account_id := "a", region := "r", endpoint_url := "u",
             queues := [("q1", { name := "q1", attributes := [("VisibilityTimeout", "30")],
                                 messages := [{ id := 2, content := "m2", attributes := [],
                                                receive_count := 0, receipt_handle := 3 }],
                                 bell := none })],
             topics := [],
             received_messages :=
               [(4, { message := { id := 0, content := "m1", attributes := [],
                                   receive_count := 1, receipt_handle := 1 },
                      queue_path := "q1", expires := 30 })],
             nextId := 5 },
           [{ id := 0, content := "m1", attributes := [],
              receive_count := 1, receipt_handle := 4 }]) ∧
    ([{ id := 0, content := "m1", attributes := [],
        receive_count := 1, receipt_handle := 4 }] : List Message).length ≤
      effective_max_count [("QueueUrl", "u/a/q1"), ("MaxNumberOfMessages", "25")] :=
  ⟨rfl, by decide,
    Or.inr (by decide),
    (((max_count_clamp [("QueueUrl", "u/a/q1"), ("MaxNumberOfMessages", "25")]).2.1
        "25" rfl).2 25 (by decide)).1 (Or.inr (by decide)),
    rfl,
    (max_count_clamp [("QueueUrl", "u/a/q1"), ("MaxNumberOfMessages", "25")]).2.2.2 0
      { account_id := "a", region := "r", endpoint_url := "u",
        queues := [("q1", { name := "q1", attributes := [("VisibilityTimeout", "30")],
                            messages := [{ id := 0, content := "m1", attributes := [],
                                           receive_count := 0, receipt_handle := 1 },
                                         { id := 2, content := "m2", attributes := [],
                                           receive_count := 0, receipt_handle := 3 }],
                            bell := none })],
        topics := [], received_messages := [], nextId := 4 }
      { account_id := "a", region := "r", endpoint_url := "u",
        queues := [("q1", { name := "q1", attributes := [("VisibilityTimeout", "30")],
                            messages := [{ id := 2, content := "m2", attributes := [],
                                           receive_count := 0, receipt_handle := 3 }],
                            bell := none })],
        topics := [],
        received_messages :=
          [(4, { message := { id := 0, content := "m1", attributes := [],
                              receive_count := 1, receipt_handle := 1 },
                 queue_path := "q1", expires := 30 })],
        nextId := 5 }
      [{ id := 0, content := "m1", attributes := [],
         receive_count := 1, receipt_handle := 4 }]
      rfl⟩

/-- C5: `DeleteMessage` and `ChangeMessageVisibility` succeed for every
receipt handle; on a handle absent from the in-flight table each is a silent
no-op that leaves the whole state unchanged and still returns success, and
consequently a `DeleteMessage` followed by another `DeleteMessage` or a
`ChangeMessageVisibility` on the same handle is a no-op. -/
theorem delete_change_visibility_idempotent
    (s : State) (handle : Nat) (visibility_field : Option String) (now : Int) :
    (alookup s.received_messages handle = none →
      delete_message (some handle) s = .ok s ∧
      change_message_visibility (some handle) visibility_field now s = .ok s) ∧
    delete_message (some handle) (s.delete_received_message handle) =
      .ok (s.delete_received_message handle) ∧
    change_message_visibility (some handle) visibility_field now
        (s.delete_received_message handle) =
      .ok (s.delete_received_message handle) := by
  refine ⟨fun h => ⟨?_, ?_⟩, ?_, ?_⟩
  · simp only [delete_message, State.delete_received_message]
    rw [aremove_of_notMem _ _ h]
  · simp only [change_message_visibility]
    cases hv : visibility_field.bind (parseUInt u32Max) with
    | none => rfl
    | some vt =>
      dsimp only
      rw [aupdate_of_notMem _ _ _ h]
  · simp only [delete_message, State.delete_received_message]
    rw [aremove_of_notMem _ _ (alookup_aremove_self _ _)]
  · simp only [change_message_visibility, State.delete_received_message]
    cases hv : visibility_field.bind (parseUInt u32Max) with
    | none => rfl
    | some vt =>
      dsimp only
      rw [aupdate_of_notMem _ _ _ (alookup_aremove_self _ _)]

/-- Witness for C5: with one in-flight record under handle 3, handle 7 is
absent: deleting or changing visibility on 7 leaves the state unchanged and
succeeds, and a delete of 3 followed by a second delete or a visibility
change on 3 is a no-op. -/
theorem delete_change_visibility_idempotent_witness :
    alookup ({ account_id := "a", region := "r", endpoint_url := "u",
               queues := [], topics := [],
               received_messages :=
                 [(3, { message := { id := 0, content := "x", attributes := [],
                                     receive_count := 1, receipt_handle := 1 },
                        queue_path := "q1", expires := 30 })],
               nextId := 4 } : State).received_messages 7 = none ∧
    delete_message (some 7)
        { account_id := "a", region := "r", endpoint_url := "u",
          queues := [], topics := [],
          received_messages :=
            [(3, { message := { id := 0, content := "x", attributes := [],
                                receive_count := 1, receipt_handle := 1 },
                   queue_path := "q1", expires := 30 })],
          nextId := 4 } =
      .ok { account_id := "a", region := "r", endpoint_url := "u",
            queues := [], topics := [],
            received_messages :=
              [(3, { message := { id := 0, content := "x", attributes := [],
                                  receive_count := 1, receipt_handle := 1 },
                     queue_path := "q1", expires := 30 })],
            nextId := 4 } ∧
    change_message_visibility (some 7) (some "11") 0
        { account_id := "a", region := "r", endpoint_url := "u",
          queues := [], topics := [],
          received_messages :=
            [(3, { message := { id := 0, content := "x", attributes := [],
                                receive_count := 1, receipt_handle := 1 },
                   queue_path := "q1", expires := 30 })],
          nextId := 4 } =
      .ok { account_id := "a", region := "r", endpoint_url := "u",
            queues := [], topics := [],
            received_messages :=
              [(3, { message := { id := 0, content := "x", attributes := [],
                                  receive_count := 1, receipt_handle := 1 },
                     queue_path := "q1", expires := 30 })],
            nextId := 4 } :=
  ⟨rfl,
    ((delete_change_visibility_idempotent
        { account_id := "a", region := "r", endpoint_url := "u",
          queues := [], topics := [],
          received_messages :=
            [(3, { message := { id := 0, content := "x", attributes := [],
                                receive_count := 1, receipt_handle := 1 },
                   queue_path := "q1", expires := 30 })],
          nextId := 4 } 7 (some "11") 0).1 rfl).1,
    ((delete_change_visibility_idempotent
        { account_id := "a", region := "r", endpoint_url := "u",
          queues := [], topics := [],
          received_messages :=
            [(3, { message := { id := 0, content := "x", attributes := [],
                                receive_count := 1, receipt_handle := 1 },
                   queue_path := "q1", expires := 30 })],
          nextId := 4 } 7 (some "11") 0).1 rfl).2⟩

/-- C6: publishing to an absent topic fails with `TopicNotFound`; publishing
to an existing topic builds exactly one message (one fresh id) and appends an
independent copy of it to every queue a subscription endpoint resolves to
(one copy per such subscription), waking any parked waiter there; endpoints
that no longer resolve are skipped silently (absent keys stay absent, no
error), and the call returns success carrying the single fresh message id. -/
theorem publish_fanout_spec
    (form : Form) (s : State) (target_arn message_body : String)
    (htarget : alookup form "TargetArn" = some target_arn)
    (hbody : alookup form "Message" = some message_body) :
    (alookup s.topics target_arn = none →
      publish form s = .error (.topicNotFound target_arn)) ∧
    (∀ t, alookup s.topics target_arn = some t →
      publish form s =
        .ok ({ s with
               queues := publish_fanout
                 (Message.new message_body (get_message_attributes form) s.nextId)
                 t.get_queue_urls s.queues
               nextId := s.nextId + 2 },
             s.nextId) ∧
      (∀ p, alookup (publish_fanout
            (Message.new message_body (get_message_attributes form) s.nextId)
            t.get_queue_urls s.queues) p =
        (alookup s.queues p).map fun q =>
          if t.get_queue_urls.countP (fun u => get_queue_path u == p) = 0 then q
          else { q with
                 messages := q.messages ++
                   List.replicate (t.get_queue_urls.countP fun u => get_queue_path u == p)
                     (Message.new message_body (get_message_attributes form) s.nextId)
                 bell := none })) := by
  constructor
  · intro hnone
    simp only [publish, htarget, hbody, hnone]
  · intro t ht
    constructor
    · simp only [publish, htarget, hbody, ht]
      rfl
    · intro p
      rw [publish_fanout_alookup]
      cases halq : alookup s.queues p with
      | none => simp
      | some q =>
        simp only [Option.map_some']
        cases hk : t.get_queue_urls.countP fun u => get_queue_path u == p with
        | zero => simp
        | succ k =>
          rw [send_message_iterate]
          simp

/-- Witness for C6: a topic with two subscriptions, one resolving to queue
`q1` and one to the missing queue `qq`: publish succeeds with the fresh id
0, `q1` receives one copy, `qq` stays absent. -/
theorem publish_fanout_spec_witness :
    alookup ([("TargetArn", "t"), ("Message", "x")] : Form) "TargetArn" = some "t" ∧
    alookup ([("TargetArn", "t"), ("Message", "x")] : Form) "Message" = some "x" ∧
    alookup ({ account_id := "a", region := "r", endpoint_url := "u",
               queues := [("q1", { name := "q1", attributes := [("VisibilityTimeout", "30")],
                                   messages := [], bell := none })],
               topics := [("t", { name := "t", arn := "t", attributes := [],
                                  subscriptions :=
                                    [{ id := 7, arn := { topicArn := "t", subId := 7 },
                                       owner := "a", protocol := "sqs",
                                       endpoint := "u/a/q1", topic_arn := "t" },
                                     { id := 8, arn := { topicArn := "t", subId := 8 },
                                       owner := "a", protocol := "sqs",
                                       endpoint := "u/a/qq", topic_arn := "t" }] })],
               received_messages := [], nextId := 0 } : State).topics "t" =
      some { name := "t", arn := "t", attributes := [],
             subscriptions :=
               [{ id := 7, arn := { topicArn := "t", subId := 7 },
                  owner := "a", protocol := "sqs",
                  endpoint := "u/a/q1", topic_arn := "t" },
                { id := 8, arn := { topicArn := "t", subId := 8 },
                  owner := "a", protocol := "sqs",
                  endpoint := "u/a/qq", topic_arn := "t" }] } ∧
    publish [("TargetArn", "t"), ("Message", "x")]
        { account_id := "a", region := "r", endpoint_url := "u",
          queues := [("q1", { name := "q1", attributes := [("VisibilityTimeout", "30")],
                              messages := [], bell := none })],
          topics := [("t", { name := "t", arn := "t", attributes := [],
                             subscriptions :=
                               [{ id := 7, arn := { topicArn := "t", subId := 7 },
                                  owner := "a", protocol := "sqs",
                                  endpoint := "u/a/q1", topic_arn := "t" },
                                { id := 8, arn := { topicArn := "t", subId := 8 },
                                  owner := "a", protocol := "sqs",
                                  endpoint := "u/a/qq", topic_arn := "t" }] })],
          received_messages := [], nextId := 0 } =
      .ok ({ account_id := "a", region := "r", endpoint_url := "u",
             queues := [("q1", { name := "q1", attributes := [("VisibilityTimeout", "30")],
                                 messages := [{ id := 0, content := "x", attributes := [],
                                                receive_count := 0, receipt_handle := 1 }],
                                 bell := none })],
             topics := [("t", { name := "t", arn := "t", attributes := [],
                                subscriptions :=
                                  [{ id := 7, arn := { topicArn := "t", subId := 7 },
                                     owner := "a", protocol := "sqs",
                                     endpoint := "u/a/q1", topic_arn := "t" },
                                   { id := 8, arn := { topicArn := "t", subId := 8 },
                                     owner := "a", protocol := "sqs",
                                     endpoint := "u/a/qq", topic_arn := "t" }] })],
             received_messages := [], nextId := 2 }, 0) ∧
    alookup ([("q1", ({ name := "q1", attributes := [("VisibilityTimeout", "30")],
                        messages := [{ id := 0, content := "x", attributes := [],
                                       receive_count := 0, receipt_handle := 1 }],
                        bell := none } : SQSQueue))]) "qq" = none :=
  ⟨rfl, rfl, rfl,
    ((publish_fanout_spec [("TargetArn", "t"), ("Message", "x")]
      { account_id := "a", region := "r", endpoint_url := "u",
        queues := [("q1", { name := "q1", attributes := [("VisibilityTimeout", "30")],
                            messages := [], bell := none })],
        topics := [("t", { name := "t", arn := "t", attributes := [],
                           subscriptions :=
                             [{ id := 7, arn := { topicArn := "t", subId := 7 },
                                owner := "a", protocol := "sqs",
                                endpoint := "u/a/q1", topic_arn := "t" },
                              { id := 8, arn := { topicArn := "t", subId := 8 },
                                owner := "a", protocol := "sqs",
                                endpoint := "u/a/qq", topic_arn := "t" }] })],
        received_messages := [], nextId := 0 }
      "t" "x" rfl rfl).2
      { name := "t", arn := "t", attributes := [],
        subscriptions :=
          [{ id := 7, arn := { topicArn := "t", subId := 7 },
             owner := "a", protocol := "sqs",
             endpoint := "u/a/q1", topic_arn := "t" },
           { id := 8, arn := { topicArn := "t", subId := 8 },
             owner := "a", protocol := "sqs",
             endpoint := "u/a/qq", topic_arn := "t" }] } rfl).1,
    rfl⟩

/-- C7: subscribing twice with identical `(topicArn, endpoint)` arguments to
an existing topic (holding no subscription with that pair yet) leaves
exactly one subscription with that pair: the second call changes nothing but
the id generator, and `ListSubscriptionsByTopic` reports the single stored
subscription. -/
theorem subscribe_idempotent
    (form : Form) (s : State) (topic_arn endpoint protocol : String) (t : SNSTopic)
    (hta : alookup form "TopicArn" = some topic_arn)
    (hep : alookup form "Endpoint" = some endpoint)
    (hpr : alookup form "Protocol" = some protocol)
    (ht : alookup s.topics topic_arn = some t)
    (hzero : t.subscriptions.countP
        (fun s0 => s0.topic_arn == topic_arn && s0.endpoint == endpoint) = 0) :
    subscribe form s =
      .ok ({ s with
             topics := aupdate
               (fun _ => { t with subscriptions := t.subscriptions ++
                  [SNSSubscription.new_sqs topic_arn endpoint s.account_id s.nextId] })
               s.topics topic_arn
             nextId := s.nextId + 1 },
           { topicArn := topic_arn, subId := s.nextId }) ∧
    subscribe form
        { s with
          topics := aupdate
            (fun _ => { t with subscriptions := t.subscriptions ++
               [SNSSubscription.new_sqs topic_arn endpoint s.account_id s.nextId] })
            s.topics topic_arn
          nextId := s.nextId + 1 } =
      .ok ({ s with
             topics := aupdate
               (fun _ => { t with subscriptions := t.subscriptions ++
                  [SNSSubscription.new_sqs topic_arn endpoint s.account_id s.nextId] })
               s.topics topic_arn
             nextId := s.nextId + 2 },
           { topicArn := topic_arn, subId := s.nextId + 1 }) ∧
    list_subscriptions_by_topic [("TopicArn", topic_arn)]
        { s with
          topics := aupdate
            (fun _ => { t with subscriptions := t.subscriptions ++
               [SNSSubscription.new_sqs topic_arn endpoint s.account_id s.nextId] })
            s.topics topic_arn
          nextId := s.nextId + 2 } =
      .ok (t.subscriptions ++
        [SNSSubscription.new_sqs topic_arn endpoint s.account_id s.nextId]) ∧
    (t.subscriptions ++
        [SNSSubscription.new_sqs topic_arn endpoint s.account_id s.nextId]).countP
      (fun s0 => s0.topic_arn == topic_arn && s0.endpoint == endpoint) = 1 := by
  have hany : (t.subscriptions.any fun s0 =>
      s0.topic_arn == topic_arn && s0.endpoint == endpoint) = false := by
    rw [List.any_eq_false]
    intro x hx
    have := List.countP_eq_zero.mp hzero x hx
    simpa using this
  have hadd : t.add_subscription
      (SNSSubscription.new_sqs topic_arn endpoint s.account_id s.nextId) =
      { t with subscriptions := t.subscriptions ++
        [SNSSubscription.new_sqs topic_arn endpoint s.account_id s.nextId] } := by
    simp only [SNSTopic.add_subscription, SNSSubscription.new_sqs, hany,
      Bool.false_eq_true, if_false]
  have hupd : aupdate (fun t0 => t0.add_subscription
        (SNSSubscription.new_sqs topic_arn endpoint s.account_id s.nextId))
        s.topics topic_arn =
      aupdate (fun _ => { t with subscriptions := t.subscriptions ++
        [SNSSubscription.new_sqs topic_arn endpoint s.account_id s.nextId] })
        s.topics topic_arn :=
    aupdate_congr_of_lookup _ _ _ _ t ht hadd
  have ht1 : alookup (aupdate
      (fun _ => { t with subscriptions := t.subscriptions ++
         [SNSSubscription.new_sqs topic_arn endpoint s.account_id s.nextId] })
      s.topics topic_arn) topic_arn =
      some { t with subscriptions := t.subscriptions ++
        [SNSSubscription.new_sqs topic_arn endpoint s.account_id s.nextId] } := by
    rw [alookup_aupdate_self, ht]
    rfl
  have hmem : SNSSubscription.new_sqs topic_arn endpoint s.account_id s.nextId ∈
      t.subscriptions ++
        [SNSSubscription.new_sqs topic_arn endpoint s.account_id s.nextId] :=
    List.mem_append_right _ (List.mem_singleton_self _)
  have hany2 : ((t.subscriptions ++
      [SNSSubscription.new_sqs topic_arn endpoint s.account_id s.nextId]).any
        fun s0 => s0.topic_arn == topic_arn && s0.endpoint == endpoint) = true := by
    rw [List.any_eq_true]
    exact ⟨_, hmem, by simp [SNSSubscription.new_sqs]⟩
  have hadd2 : SNSTopic.add_subscription
      { t with subscriptions := t.subscriptions ++
        [SNSSubscription.new_sqs topic_arn endpoint s.account_id s.nextId] }
      (SNSSubscription.new_sqs topic_arn endpoint s.account_id (s.nextId + 1)) =
      { t with subscriptions := t.subscriptions ++
        [SNSSubscription.new_sqs topic_arn endpoint s.account_id s.nextId] } := by
    simp only [SNSTopic.add_subscription, SNSSubscription.new_sqs]
    rw [if_pos]
    exact hany2
  refine ⟨?_, ?_, ?_, ?_⟩
  · simp only [subscribe, hta, hep, hpr, ht]
    rw [hupd]
    rfl
  · simp only [subscribe, hta, hep, hpr, ht1]
    rw [aupdate_id_of_lookup _ _ _ _ ht1 hadd2]
    rfl
  · have hform : alookup ([("TopicArn", topic_arn)] : Form) "TopicArn" = some topic_arn := by
      simp [alookup]
    simp only [list_subscriptions_by_topic, hform, ht1]
  · rw [List.countP_append, hzero]
    simp [SNSSubscription.new_sqs, List.countP_cons]

/-- Witness for C7: subscribing queue endpoint `u/a/q1` to topic `t` twice
from a fresh topic yields exactly one stored subscription with that pair. -/
theorem subscribe_idempotent_witness :
    alookup ([("TopicArn", "t"), ("Endpoint", "u/a/q1"), ("Protocol", "sqs")] : Form)
      "TopicArn" = some "t" ∧
    alookup ({ account_id := "a", region := "r", endpoint_url := "u",
               queues := [], topics := [("t", { name := "t", arn := "t", attributes := [],
                                                subscriptions := [] })],
               received_messages := [], nextId := 0 } : State).topics "t" =
      some { name := "t", arn := "t", attributes := [], subscriptions := [] } ∧
    subscribe [("TopicArn", "t"), ("Endpoint", "u/a/q1"), ("Protocol", "sqs")]
        { account_id := "a", region := "r", endpoint_url := "u",
          queues := [], topics := [("t", { name := "t", arn := "t", attributes := [],
                                           subscriptions := [] })],
          received_messages := [], nextId := 0 } =
      .ok ({ account_id := "a", region := "r", endpoint_url := "u",
             queues := [],
             topics := [("t", { name := "t", arn := "t", attributes := [],
                                subscriptions :=
                                  [{ id := 0, arn := { topicArn := "t", subId := 0 },
                                     owner := "a", protocol := "sqs",
                                     endpoint := "u/a/q1", topic_arn := "t" }] })],
             received_messages := [], nextId := 1 },
           { topicArn := "t", subId := 0 }) ∧
    subscribe [("TopicArn", "t"), ("Endpoint", "u/a/q1"), ("Protocol", "sqs")]
        { account_id := "a", region := "r", endpoint_url := "u",
          queues := [],
          topics := [("t", { name := "t", arn := "t", attributes := [],
                             subscriptions :=
                               [{ id := 0, arn := { topicArn := "t", subId := 0 },
                                  owner := "a", protocol := "sqs",
                                  endpoint := "u/a/q1", topic_arn := "t" }] })],
          received_messages := [], nextId := 1 } =
      .ok ({ account_id := "a", region := "r", endpoint_url := "u",
             queues := [],
             topics := [("t", { name := "t", arn := "t", attributes := [],
                                subscriptions :=
                                  [{ id := 0, arn := { topicArn := "t", subId := 0 },
                                     owner := "a", protocol := "sqs",
                                     endpoint := "u/a/q1", topic_arn := "t" }] })],
             received_messages := [], nextId := 2 },
           { topicArn := "t", subId := 1 }) ∧
    list_subscriptions_by_topic [("TopicArn", "t")]
        { account_id := "a", region := "r", endpoint_url := "u",
          queues := [],
          topics := [("t", { name := "t", arn := "t", attributes := [],
                             subscriptions :=
                               [{ id := 0, arn := { topicArn := "t", subId := 0 },
                                  owner := "a", protocol := "sqs",
                                  endpoint := "u/a/q1", topic_arn := "t" }] })],
          received_messages := [], nextId := 2 } =
      .ok [{ id := 0, arn := { topicArn := "t", subId := 0 },
             owner := "a", protocol := "sqs",
             endpoint := "u/a/q1", topic_arn := "t" }] ∧
    ([{ id := 0, arn := { topicArn := "t", subId := 0 },
        owner := "a", protocol := "sqs",
        endpoint := "u/a/q1", topic_arn := "t" }] : List SNSSubscription).countP
      (fun s0 => s0.topic_arn == "t" && s0.endpoint == "u/a/q1") = 1 := by
  have h := subscribe_idempotent
    [("TopicArn", "t"), ("Endpoint", "u/a/q1"), ("Protocol", "sqs")]
    { account_id := "a", region := "r", endpoint_url := "u",
      queues := [], topics := [("t", { name := "t", arn := "t", attributes := [],
                                       subscriptions := [] })],
      received_messages := [], nextId := 0 }
    "t" "u/a/q1" "sqs"
    { name := "t", arn := "t", attributes := [], subscriptions := [] }
    rfl rfl rfl rfl (by decide)
  exact ⟨rfl, rfl, h.1, h.2.1, h.2.2.1, h.2.2.2⟩

lemma set_attribute_default_name (q : SQSQueue) (key default : String) :
    (q.set_attribute_default key default).name = q.name := by
  unfold SQSQueue.set_attribute_default
  cases alookup q.attributes key <;> rfl

/-- C8: `create_queue` on a name whose derived path is already registered
(under the same queue name) is a no-op returning the existing queue's
identity: the state — including the stored queue's attributes and pending
messages — is returned unchanged, and the returned URL equals the URL
derived from the existing queue's name. -/
theorem create_queue_existing_noop
    (form : Form) (s : State) (queue_name : String) (q0 : SQSQueue)
    (hname : alookup form "QueueName" = some queue_name)
    (hq : alookup s.queues (get_queue_path (s.get_queue_url queue_name)) = some q0)
    (hqname : q0.name = queue_name) :
    create_queue form s = .ok (s, s.get_queue_url queue_name) ∧
    s.get_queue_url queue_name = s.get_queue_url q0.name := by
  refine ⟨?_, by rw [hqname]⟩
  simp only [create_queue, hname, State.add_queue, set_attribute_default_name,
    SQSQueue.new, hq]

/-- Witness for C8: creating `q1` again (with different attributes) returns
the stored queue's URL and leaves the registered queue, its attributes and
its pending message untouched. -/
theorem create_queue_existing_noop_witness :
    alookup ([("QueueName", "q1"), ("Attribute.1.Name", "VisibilityTimeout"),
              ("Attribute.1.Value", "99")] : Form) "QueueName" = some "q1" ∧
    alookup ({ account_id := "a", region := "r", endpoint_url := "u",
               queues := [("q1", { name := "q1", attributes := [("VisibilityTimeout", "30")],
                                   messages := [{ id := 5, content := "kept", attributes := [],
                                                  receive_count := 0, receipt_handle := 6 }],
                                   bell := none })],
               topics := [], received_messages := [], nextId := 7 } : State).queues
      (get_queue_path (({ account_id := "a", region := "r", endpoint_url := "u",
                          queues := [("q1", { name := "q1",
                                              attributes := [("VisibilityTimeout", "30")],
                                              messages := [{ id := 5, content := "kept",
                                                             attributes := [],
                                                             receive_count := 0,
                                                             receipt_handle := 6 }],
                                              bell := none })],
                          topics := [], received_messages := [],
                          nextId := 7 } : State).get_queue_url "q1")) =
      some { name := "q1", attributes := [("VisibilityTimeout", "30")],
             messages := [{ id := 5, content := "kept", attributes := [],
                            receive_count := 0, receipt_handle := 6 }],
             bell := none } ∧
    create_queue [("QueueName", "q1"), ("Attribute.1.Name", "VisibilityTimeout"),
                  ("Attribute.1.Value", "99")]
        { account_id := "a", region := "r", endpoint_url := "u",
          queues := [("q1", { name := "q1", attributes := [("VisibilityTimeout", "30")],
                              messages := [{ id := 5, content := "kept", attributes := [],
                                             receive_count := 0, receipt_handle := 6 }],
                              bell := none })],
          topics := [], received_messages := [], nextId := 7 } =
      .ok ({ account_id := "a", region := "r", endpoint_url := "u",
             queues := [("q1", { name := "q1", attributes := [("VisibilityTimeout", "30")],
                                 messages := [{ id := 5, content := "kept", attributes := [],
                                                receive_count := 0, receipt_handle := 6 }],
                                 bell := none })],
             topics := [], received_messages := [], nextId := 7 }, "u/a/q1") :=
  ⟨rfl, rfl,
    (create_queue_existing_noop
      [("QueueName", "q1"), ("Attribute.1.Name", "VisibilityTimeout"),
       ("Attribute.1.Value", "99")]
      { account_id := "a", region := "r", endpoint_url := "u",
        queues := [("q1", { name := "q1", attributes := [("VisibilityTimeout", "30")],
                            messages := [{ id := 5, content := "kept", attributes := [],
                                           receive_count := 0, receipt_handle := 6 }],
                            bell := none })],
        topics := [], received_messages := [], nextId := 7 }
      "q1"
      { name := "q1", attributes := [("VisibilityTimeout", "30")],
        messages := [{ id := 5, content := "kept", attributes := [],
                       receive_count := 0, receipt_handle := 6 }],
        bell := none }
      rfl rfl rfl).1⟩

/-- C9 (counterexample): after a `ReceiveMessage` call on an empty queue
with `WaitTimeSeconds = 5` times out, the call returns an empty non-error
result, but the queue's waiter slot is NOT cleared: the bell still holds the
sender half of the (now dead) channel — `some { receiverAlive := false }`,
not `none` as the claim's "waiter slot is cleared" requires. -/
theorem timed_out_receive_bell_not_cleared_cex :
    receive_message [("QueueUrl", "u/a/q1"), ("WaitTimeSeconds", "5")] 0
      { account_id := "a", region := "r", endpoint_url := "u",
        queues := [("q1", { name := "q1", attributes := [("VisibilityTimeout", "30")],
                            messages := [], bell := none })],
        topics := [], received_messages := [], nextId := 0 } =
      .ok ({ account_id := "a", region := "r", endpoint_url := "u",
             queues := [("q1", { name := "q1", attributes := [("VisibilityTimeout", "30")],
                                 messages := [], bell := some { receiverAlive := false } })],
             topics := [], received_messages := [], nextId := 0 }, []) ∧
    alookup ([("q1", ({ name := "q1", attributes := [("VisibilityTimeout", "30")],
                        messages := [], bell := some { receiverAlive := false } } :
                       SQSQueue))]) "q1" =
      some { name := "q1", attributes := [("VisibilityTimeout", "30")],
             messages := [], bell := some { receiverAlive := false } } ∧
    (some { receiverAlive := false } : Option Bell) ≠ none :=
  ⟨rfl, rfl, by decide⟩

/-- C9 (amended): when a receive call parks on an empty queue and its wait
elapses with no concurrent send, it does return an empty non-error result,
but the queue's waiter slot is not cleared: the bell keeps the sender whose
receiver half is dead.  This is harmless: the next `send_message` always
enqueues the message and empties the slot; only its wake attempt fails (it
finds a dead receiver). -/
theorem timed_out_receive_amended
    (form : Form) (now : Int) (s : State) (queue_url : String) (q : SQSQueue)
    (hurl : alookup form "QueueUrl" = some queue_url)
    (hq : alookup s.queues (get_queue_path queue_url) = some q)
    (hempty : q.messages = []) :
    receive_message form now s =
      .ok ({ s with
             queues := aupdate (fun _ => { q with bell := some { receiverAlive := false } })
               s.queues (get_queue_path queue_url) }, []) ∧
    alookup (aupdate (fun _ => { q with bell := some { receiverAlive := false } })
        s.queues (get_queue_path queue_url)) (get_queue_path queue_url) =
      some { q with bell := some { receiverAlive := false } } ∧
    ({ q with bell := some { receiverAlive := false } } : SQSQueue).bell ≠ none ∧
    (∀ b, ({ q with bell := some { receiverAlive := false } } : SQSQueue).bell = some b →
      b.receiverAlive = false) ∧
    (∀ m, SQSQueue.send_message { q with bell := some { receiverAlive := false } } m =
      { q with messages := q.messages ++ [m], bell := none }) := by
  refine ⟨?_, ?_, by simp, ?_, fun m => rfl⟩
  · have hhm : q.has_message = false := by
      simp [SQSQueue.has_message, hempty]
    simp only [receive_message, hurl, hq, hhm, Bool.false_eq_true, if_false]
    have hstep : aupdate
        (fun q0 : SQSQueue => { q0.get_waiter with bell := some { receiverAlive := false } })
        s.queues (get_queue_path queue_url) =
        aupdate (fun _ : SQSQueue => { q with bell := some { receiverAlive := false } })
          s.queues (get_queue_path queue_url) :=
      aupdate_congr_of_lookup _ _ _ _ q hq rfl
    rw [hstep]
  · rw [alookup_aupdate_self, hq]
    rfl
  · intro b hb
    injection hb with h1
    rw [← h1]

/-- Witness for C9 (amended): the concrete empty queue `q1`. -/
theorem timed_out_receive_amended_witness :
    alookup ([("QueueUrl", "u/a/q1"), ("WaitTimeSeconds", "5")] : Form) "QueueUrl" =
      some "u/a/q1" ∧
    alookup ({ account_id := "a", region := "r", endpoint_url := "u",
               queues := [("q1", { name := "q1", attributes := [],
                                   messages := [], bell := none })],
               topics := [], received_messages := [], nextId := 3 } : State).queues
        (get_queue_path "u/a/q1") =
      some { name := "q1", attributes := [], messages := [], bell := none } ∧
    ({ name := "q1", attributes := [], messages := [], bell := none } : SQSQueue).messages
      = [] ∧
    receive_message [("QueueUrl", "u/a/q1"), ("WaitTimeSeconds", "5")] 7
        { account_id := "a", region := "r", endpoint_url := "u",
          queues := [("q1", { name := "q1", attributes := [],
                              messages := [], bell := none })],
          topics := [], received_messages := [], nextId := 3 } =
      .ok ({ account_id := "a", region := "r", endpoint_url := "u",
             queues := [("q1", { name := "q1", attributes := [],
                                 messages := [], bell := some { receiverAlive := false } })],
             topics := [], received_messages := [], nextId := 3 }, []) ∧
    SQSQueue.send_message
        { name := "q1", attributes := [], messages := [],
          bell := some { receiverAlive := false } }
        { id := 8, content := "late", attributes := [],
          receive_count := 0, receipt_handle := 9 } =
      { name := "q1", attributes := [],
        messages := [{ id := 8, content := "late", attributes := [],
                       receive_count := 0, receipt_handle := 9 }],
        bell := none } := by
  have h := timed_out_receive_amended
    [("QueueUrl", "u/a/q1"), ("WaitTimeSeconds", "5")] 7
    { account_id := "a", region := "r", endpoint_url := "u",
      queues := [("q1", { name := "q1", attributes := [],
                          messages := [], bell := none })],
      topics := [], received_messages := [], nextId := 3 }
    "u/a/q1"
    { name := "q1", attributes := [], messages := [], bell := none }
    rfl rfl rfl
  exact ⟨rfl, rfl, rfl, h.1,
    h.2.2.2.2 { id := 8, content := "late", attributes := [],
                receive_count := 0, receipt_handle := 9 }⟩

/-- All subscription ids stored anywhere in the topic registry are below the
generator counter — the invariant the id generator maintains. -/
def ids_fresh (s : State) : Bool :=
  s.topics.all fun p => p.2.subscriptions.all fun sub => decide (sub.arn.subId < s.nextId)

/-- C10: a `Subscribe` on an existing topic whose `(topicArn, endpoint)`
pair is already subscribed still succeeds and returns a freshly generated
subscription ARN that is never stored: the topic's subscription list is
unchanged (only the id generator advances), the returned ARN does not occur
in the `ListSubscriptionsByTopic` output, and a later `Unsubscribe` with it
removes nothing. -/
theorem duplicate_subscribe_fresh_arn
    (form : Form) (s : State) (topic_arn endpoint protocol : String) (t : SNSTopic)
    (hta : alookup form "TopicArn" = some topic_arn)
    (hep : alookup form "Endpoint" = some endpoint)
    (hpr : alookup form "Protocol" = some protocol)
    (ht : alookup s.topics topic_arn = some t)
    (hdup : (t.subscriptions.any
        fun s0 => s0.topic_arn == topic_arn && s0.endpoint == endpoint) = true)
    (hfresh : ids_fresh s = true) :
    subscribe form s = .ok ({ s with nextId := s.nextId + 1 },
      { topicArn := topic_arn, subId := s.nextId }) ∧
    list_subscriptions_by_topic [("TopicArn", topic_arn)] { s with nextId := s.nextId + 1 } =
      .ok t.subscriptions ∧
    (∀ sub ∈ t.subscriptions,
      sub.arn ≠ { topicArn := topic_arn, subId := s.nextId }) ∧
    unsubscribe { topicArn := topic_arn, subId := s.nextId } { s with nextId := s.nextId + 1 } =
      { s with nextId := s.nextId + 1 } := by
  have hfresh' : ∀ p ∈ s.topics, ∀ sub ∈ p.2.subscriptions, sub.arn.subId < s.nextId := by
    intro p hp sub hsub
    have h1 := List.all_eq_true.mp hfresh p hp
    have h2 := List.all_eq_true.mp h1 sub hsub
    exact of_decide_eq_true h2
  have harnne : ∀ p ∈ s.topics, ∀ sub ∈ p.2.subscriptions,
      sub.arn ≠ { topicArn := topic_arn, subId := s.nextId } := by
    intro p hp sub hsub heq
    have hlt := hfresh' p hp sub hsub
    rw [heq] at hlt
    exact absurd hlt (lt_irrefl _)
  refine ⟨?_, ?_, ?_, ?_⟩
  · have hadd : t.add_subscription
        (SNSSubscription.new_sqs topic_arn endpoint s.account_id s.nextId) = t := by
      simp only [SNSTopic.add_subscription, SNSSubscription.new_sqs]
      rw [if_pos]
      exact hdup
    simp only [subscribe, hta, hep, hpr, ht]
    rw [aupdate_id_of_lookup _ _ _ _ ht hadd]
    rfl
  · have hform : alookup ([("TopicArn", topic_arn)] : Form) "TopicArn" = some topic_arn := by
      simp [alookup]
    simp only [list_subscriptions_by_topic, hform, ht]
  · exact harnne (topic_arn, t) (alookup_mem _ _ _ ht)
  · simp only [unsubscribe]
    rw [show ({ s with nextId := s.nextId + 1 } : State).topics = s.topics from rfl]
    rw [map_id_of_mem _ _ ?_]
    · intro p hp
      have hkeep : (p.2.subscriptions.filter
          fun s0 => !(s0.arn == ({ topicArn := topic_arn, subId := s.nextId } :
            SubscriptionArn))) = p.2.subscriptions := by
        rw [List.filter_eq_self]
        intro sub hsub
        simp only [Bool.not_eq_eq_eq_not, Bool.not_true, beq_eq_false_iff_ne, ne_eq]
        exact harnne p hp sub hsub
      show (p.1, p.2.remove_subscription { topicArn := topic_arn, subId := s.nextId }) = p
      simp only [SNSTopic.remove_subscription, hkeep]

/-- Witness for C10: topic `t` already has the `(t, u/a/q1)` subscription
with id 0; a duplicate subscribe returns the fresh unstored ARN `(t, 5)`,
listing shows only the stored subscription, and unsubscribing `(t, 5)`
changes nothing. -/
theorem duplicate_subscribe_fresh_arn_witness :
    alookup ([("TopicArn", "t"), ("Endpoint", "u/a/q1"), ("Protocol", "sqs")] : Form)
      "TopicArn" = some "t" ∧
    (([{ id := 0, arn := { topicArn := "t", subId := 0 },
         owner := "a", protocol := "sqs",
         endpoint := "u/a/q1", topic_arn := "t" }] : List SNSSubscription).any
      fun s0 => s0.topic_arn == "t" && s0.endpoint == "u/a/q1") = true ∧
    ids_fresh { account_id := "a", region := "r", endpoint_url := "u",
                queues := [],
                topics := [("t", { name := "t", arn := "t", attributes := [],
                                   subscriptions :=
                                     [{ id := 0, arn := { topicArn := "t", subId := 0 },
                                        owner := "a", protocol := "sqs",
                                        endpoint := "u/a/q1", topic_arn := "t" }] })],
                received_messages := [], nextId := 5 } = true ∧
    subscribe [("TopicArn", "t"), ("Endpoint", "u/a/q1"), ("Protocol", "sqs")]
        { account_id := "a", region := "r", endpoint_url := "u",
          queues := [],
          topics := [("t", { name := "t", arn := "t", attributes := [],
                             subscriptions :=
                               [{ id := 0, arn := { topicArn := "t", subId := 0 },
                                  owner := "a", protocol := "sqs",
                                  endpoint := "u/a/q1", topic_arn := "t" }] })],
          received_messages := [], nextId := 5 } =
      .ok ({ account_id := "a", region := "r", endpoint_url := "u",
             queues := [],
             topics := [("t", { name := "t", arn := "t", attributes := [],
                                subscriptions :=
                                  [{ id := 0, arn := { topicArn := "t", subId := 0 },
                                     owner := "a", protocol := "sqs",
                                     endpoint := "u/a/q1", topic_arn := "t" }] })],
             received_messages := [], nextId := 6 },
           { topicArn := "t", subId := 5 }) ∧
    list_subscriptions_by_topic [("TopicArn", "t")]
        { account_id := "a", region := "r", endpoint_url := "u",
          queues := [],
          topics := [("t", { name := "t", arn := "t", attributes := [],
                             subscriptions :=
                               [{ id := 0, arn := { topicArn := "t", subId := 0 },
                                  owner := "a", protocol := "sqs",
                                  endpoint := "u/a/q1", topic_arn := "t" }] })],
          received_messages := [], nextId := 6 } =
      .ok [{ id := 0, arn := { topicArn := "t", subId := 0 },
             owner := "a", protocol := "sqs",
             endpoint := "u/a/q1", topic_arn := "t" }] ∧
    unsubscribe { topicArn := "t", subId := 5 }
        { account_id := "a", region := "r", endpoint_url := "u",
          queues := [],
          topics := [("t", { name := "t", arn := "t", attributes := [],
                             subscriptions :=
                               [{ id := 0, arn := { topicArn := "t", subId := 0 },
                                  owner := "a", protocol := "sqs",
                                  endpoint := "u/a/q1", topic_arn := "t" }] })],
          received_messages := [], nextId := 6 } =
      { account_id := "a", region := "r", endpoint_url := "u",
        queues := [],
        topics := [("t", { name := "t", arn := "t", attributes := [],
                           subscriptions :=
                             [{ id := 0, arn := { topicArn := "t", subId := 0 },
                                owner := "a", protocol := "sqs",
                                endpoint := "u/a/q1", topic_arn := "t" }] })],
        received_messages := [], nextId := 6 } := by
  have h := duplicate_subscribe_fresh_arn
    [("TopicArn", "t"), ("Endpoint", "u/a/q1"), ("Protocol", "sqs")]
    { account_id := "a", region := "r", endpoint_url := "u",
      queues := [],
      topics := [("t", { name := "t", arn := "t", attributes := [],
                         subscriptions :=
                           [{ id := 0, arn := { topicArn := "t", subId := 0 },
                              owner := "a", protocol := "sqs",
                              endpoint := "u/a/q1", topic_arn := "t" }] })],
      received_messages := [], nextId := 5 }
    "t" "u/a/q1" "sqs"
    { name := "t", arn := "t", attributes := [],
      subscriptions := [{ id := 0, arn := { topicArn := "t", subId := 0 },
                          owner := "a", protocol := "sqs",
                          endpoint := "u/a/q1", topic_arn := "t" }] }
    rfl rfl rfl rfl (by decide) (by decide)
  exact ⟨rfl, by decide, by decide, h.1, h.2.1, h.2.2.2⟩

end Smoqs
